import Mathlib

/-!
Verification development for the alx-polly polling application's guard layer
(CSRF token guard, input validation/sanitization, ownership checks, and the
poll/vote mutation services).

The TypeScript server actions are shallowly embedded as pure Lean functions.
External collaborators (the Supabase auth provider and row store) are modelled
by an explicit `Env`/`Store` state threaded through each operation; the results
of non-deterministic external calls (the random CSRF token from
`crypto.randomBytes`, the generated row id, injected store failures) are passed
as parameters.  Strings are modelled by Lean `String` (JS `.length` counts
UTF-16 code units while Lean counts codepoints; no claim here depends on
astral-plane characters).  JS truthiness of a string (`!s`) is modelled as
`s = ""`, and an absent form field / undefined optional argument as `none`.
-/

namespace Polly

/-! ## Data model -/

/-- A row of the `polls` table (`src/app/lib/actions/poll-actions.ts` reads
`id`, `user_id`, `question`, `options`). -/
structure Poll where
  id : String
  user_id : String
  question : String
  options : List String
  deriving Repr, DecidableEq

/-- A row of the `votes` table as inserted by `submitVote`
(`poll_id`, `user_id`, `option_index`; the generated `id` is never read,
only the number of matching rows, so it is omitted). -/
structure Vote where
  poll_id : String
  user_id : String
  option_index : Int
  deriving Repr, DecidableEq

/-- The external row store: the `polls` and `votes` tables. -/
structure Store where
  polls : List Poll
  votes : List Vote
  deriving Repr, DecidableEq

/-- The identity resolved by `supabase.auth.getUser()`: an opaque id plus the
`user_metadata.isAdmin` flag. -/
structure User where
  id : String
  isAdmin : Bool
  deriving Repr, DecidableEq

/-- Results of the external calls an operation performs: the resolved session
user, the `error` half of `auth.getUser()`, and injectable failures for each
row-store statement the actions issue. -/
structure Env where
  authUser : Option User
  authErr : Option String
  voteSelectErr : Option String
  pollSelectErr : Option String
  pollInsertErr : Option String
  voteInsertErr : Option String
  pollUpdateErr : Option String
  pollDeleteErr : Option String
  deriving Repr, DecidableEq

/-- An environment where every external call succeeds and the session resolves
to `u`. -/
def envOk (u : Option User) : Env :=
  ⟨u, none, none, none, none, none, none, none⟩

/-- The CSRF cookie: `none` when the `csrf_token` cookie is absent, otherwise
its stored value. -/
abbrev CsrfState := Option String

/-- The result every mutating server action returns (`{ error: string | null }`)
together with the externally persisted state it leaves behind. -/
structure ActionResult where
  error : Option String
  store : Store
  csrf : CsrfState
  deriving Repr, DecidableEq

/-- `FormData`: an ordered multimap of text fields. -/
structure FormData where
  entries : List (String × String)
  deriving Repr, DecidableEq

/-- `formData.get(k)`: first value for `k`, or `none` (JS `null`). -/
def FormData.get (fd : FormData) (k : String) : Option String :=
  (fd.entries.find? (fun e => e.fst = k)).map Prod.snd

/-- `formData.getAll(k)`: all values for `k`, in order. -/
def FormData.getAll (fd : FormData) (k : String) : List String :=
  (fd.entries.filter (fun e => e.fst = k)).map Prod.snd

/-! ## Token Guard (`src/app/lib/csrf.ts`) -/

/-- `generateCsrfToken` (csrf.ts:11-25): stores the freshly generated random
value `fresh` in the `csrf_token` cookie and returns it.  The randomness of
`crypto.randomBytes(32).toString('hex')` is modelled by taking `fresh` as a
parameter. -/
def generateCsrfToken (fresh : String) (_st : CsrfState) : String × CsrfState :=
  (fresh, some fresh)

/-- `validateCsrfToken` (csrf.ts:31-43): fails when no token is stored, the
stored token is empty, the candidate is empty, or the candidate differs from
the stored token; on success rotates the cookie to `fresh` via
`generateCsrfToken`. -/
def validateCsrfToken (token fresh : String) (st : CsrfState) : Bool × CsrfState :=
  match st with
  | none => (false, none)
  | some stored =>
    if stored = "" ∨ token = "" ∨ token ≠ stored then (false, some stored)
    else (true, (generateCsrfToken fresh (some stored)).2)

/-! ## Input Sanitizer/Validator
(inlined in `createPoll`/`updatePoll`, poll-actions.ts:36-65 and 79-87) -/

/-- Does `pat` occur at the head of the list? -/
def isPrefixList : List Char → List Char → Bool
  | [], _ => true
  | _ :: _, [] => false
  | a :: as, b :: bs => a = b && isPrefixList as bs

/-- Does `pat` occur as a contiguous sublist? -/
def isSubList (pat : List Char) : List Char → Bool
  | [] => pat.isEmpty
  | c :: rest => isPrefixList pat (c :: rest) || isSubList pat rest

/-- JS `s.includes(pat)`: substring containment. -/
def jsIncludes (s pat : String) : Bool :=
  isSubList pat.data s.data

/-- The script-injection denylist applied to the question and each option:
`s.includes('<script') || s.includes('javascript:')`. -/
def hasScriptOrJs (s : String) : Bool :=
  jsIncludes s "<script" || jsIncludes s "javascript:"

/-- Whitespace as stripped by JS `String.prototype.trim` (space, tab, LF, VT,
FF, CR, NBSP; the remaining Unicode space characters are irrelevant here). -/
def isJsWs (c : Char) : Bool :=
  c = ' ' ∨ c = '\t' ∨ c = '\n' ∨ c = '\r' ∨
    c = Char.ofNat 11 ∨ c = Char.ofNat 12 ∨ c = Char.ofNat 160

/-- Replace every occurrence of the character `t` by the string `r`
(JS `s.replace(/t/g, r)` for a single-character pattern). -/
def replaceChar (t : Char) (r : List Char) (s : List Char) : List Char :=
  s.flatMap (fun c => if c = t then r else [c])

/-- JS `s.trim()`. -/
def jsTrim (l : List Char) : List Char :=
  ((l.dropWhile isJsWs).reverse.dropWhile isJsWs).reverse

/-- The sanitization applied on the success path of `createPoll`/`updatePoll`
(poll-actions.ts:80-87): `.replace(/</g,'&lt;').replace(/>/g,'&gt;').trim()`. -/
def sanitize (s : String) : String :=
  String.mk (jsTrim (replaceChar '>' "&gt;".data (replaceChar '<' "&lt;".data s.data)))

/-- The per-option loop of `createPoll`/`updatePoll` (poll-actions.ts:47-60):
for each option in order, first the length check, then the script denylist;
the first failing check returns its error.  (The `typeof option !== 'string'`
branch is unreachable in the model, where every entry is a string.) -/
def optionsCheck : List String → Option String
  | [] => none
  | o :: rest =>
    if o.length > 200 then some "Option text is too long. Maximum 200 characters allowed."
    else if hasScriptOrJs o then some "Invalid characters detected in options."
    else optionsCheck rest

/-- The full inline validation of `createPoll`/`updatePoll`
(poll-actions.ts:36-65), applied to the already-extracted `question`
(`""` when the field is absent) and the already-filtered `options`. -/
def validatePollInput (question : String) (options : List String) : Option String :=
  if question = "" ∨ options.length < 2 then
    some "Please provide a question and at least two options."
  else if question.length > 500 then
    some "Question is too long. Maximum 500 characters allowed."
  else
    match optionsCheck options with
    | some e => some e
    | none =>
      if hasScriptOrJs question then some "Invalid characters detected in question."
      else none

/-! ## Selecting rows -/

/-- `.select(...).eq('id', id).single()` on `polls`: PostgREST errors unless the
filter matches exactly one row. -/
def selectPollSingle (polls : List Poll) (id : String) : Except String Poll :=
  match polls.filter (fun p => p.id = id) with
  | [p] => Except.ok p
  | _ => Except.error "JSON object requested, multiple (or no) rows returned"

/-- The `votes` rows matching `.eq('poll_id', pid).eq('user_id', uid)`. -/
def votesFor (votes : List Vote) (pid uid : String) : List Vote :=
  votes.filter (fun v => v.poll_id = pid ∧ v.user_id = uid)

/-! ## Poll Mutation Service (`src/app/lib/actions/poll-actions.ts`)

The file contains two concatenated `"use server"` blocks, each exporting its
own versions of the actions.  The first block's versions carry the CSRF
checks; the second block's (suffixed `V2` here) are the drafts without them. -/

/-- `createPoll` (poll-actions.ts:12-103, first variant): CSRF check, input
validation, identity, sanitized insert.  `fresh` is the random replacement
token consumed by rotation, `newId` the row id the store generates. -/
def createPoll (env : Env) (store : Store) (cs : CsrfState) (fd : FormData)
    (fresh newId : String) : ActionResult :=
  let csrfToken := (fd.get "csrf_token").getD ""
  if csrfToken = "" then ⟨some "Missing security token", store, cs⟩
  else
    let v := validateCsrfToken csrfToken fresh cs
    if v.1 = false then
      ⟨some "Invalid security token. Please refresh the page and try again.", store, v.2⟩
    else
      let question := (fd.get "question").getD ""
      let options := (fd.getAll "options").filter (fun o => o ≠ "")
      match validatePollInput question options with
      | some e => ⟨some e, store, v.2⟩
      | none =>
        match env.authErr with
        | some m => ⟨some m, store, v.2⟩
        | none =>
          match env.authUser with
          | none => ⟨some "You must be logged in to create a poll.", store, v.2⟩
          | some u =>
            match env.pollInsertErr with
            | some m => ⟨some m, store, v.2⟩
            | none =>
              ⟨none,
               ⟨store.polls ++ [⟨newId, u.id, sanitize question, options.map sanitize⟩],
                store.votes⟩,
               v.2⟩

/-- `submitVote` (poll-actions.ts:149-218, first variant): the session user is
resolved first (its error half is ignored by this action), then the CSRF
check, the login check, the already-voted check, the poll fetch, the option
range check, and finally the insert. -/
def submitVote (env : Env) (store : Store) (cs : CsrfState) (pollId : String)
    (optionIndex : Int) (csrfToken : Option String) (fresh : String) : ActionResult :=
  let t := csrfToken.getD ""
  if t = "" then ⟨some "Missing security token", store, cs⟩
  else
    let v := validateCsrfToken t fresh cs
    if v.1 = false then
      ⟨some "Invalid security token. Please refresh and try again.", store, v.2⟩
    else
      match env.authUser with
      | none => ⟨some "You must be logged in to vote.", store, v.2⟩
      | some u =>
        match env.voteSelectErr with
        | some m => ⟨some m, store, v.2⟩
        | none =>
          if 0 < (votesFor store.votes pollId u.id).length then
            ⟨some "You have already voted on this poll.", store, v.2⟩
          else
            match env.pollSelectErr with
            | some m => ⟨some m, store, v.2⟩
            | none =>
              match selectPollSingle store.polls pollId with
              | Except.error m => ⟨some m, store, v.2⟩
              | Except.ok poll =>
                if optionIndex < 0 ∨ (poll.options.length : Int) ≤ optionIndex then
                  ⟨some "Invalid option selected", store, v.2⟩
                else
                  match env.voteInsertErr with
                  | some m => ⟨some m, store, v.2⟩
                  | none =>
                    ⟨none,
                     ⟨store.polls, store.votes ++ [⟨pollId, u.id, optionIndex⟩]⟩,
                     v.2⟩

/-- `deletePoll` (poll-actions.ts:226-270, first variant): CSRF check, identity,
ownership check against the freshly fetched row, then the delete. -/
def deletePoll (env : Env) (store : Store) (cs : CsrfState) (id : String)
    (csrfToken : Option String) (fresh : String) : ActionResult :=
  let t := csrfToken.getD ""
  if t = "" then ⟨some "Missing security token", store, cs⟩
  else
    let v := validateCsrfToken t fresh cs
    if v.1 = false then
      ⟨some "Invalid security token. Please refresh the page and try again.", store, v.2⟩
    else
      match env.authErr with
      | some m => ⟨some m, store, v.2⟩
      | none =>
        match env.authUser with
        | none => ⟨some "You must be logged in to delete a poll.", store, v.2⟩
        | some u =>
          match env.pollSelectErr with
          | some m => ⟨some m, store, v.2⟩
          | none =>
            match selectPollSingle store.polls id with
            | Except.error m => ⟨some m, store, v.2⟩
            | Except.ok poll =>
              if poll.user_id ≠ u.id then
                ⟨some "You can only delete your own polls", store, v.2⟩
              else
                match env.pollDeleteErr with
                | some m => ⟨some m, store, v.2⟩
                | none =>
                  ⟨none, ⟨store.polls.filter (fun p => ¬(p.id = id)), store.votes⟩, v.2⟩

/-- `updatePoll` (poll-actions.ts:278-392, first variant): CSRF check, input
validation, identity, ownership check against the freshly fetched row, then an
update filtered by both `id` and `user_id`. -/
def updatePoll (env : Env) (store : Store) (cs : CsrfState) (pollId : String)
    (fd : FormData) (fresh : String) : ActionResult :=
  let csrfToken := (fd.get "csrf_token").getD ""
  if csrfToken = "" then ⟨some "Missing security token", store, cs⟩
  else
    let v := validateCsrfToken csrfToken fresh cs
    if v.1 = false then
      ⟨some "Invalid security token. Please refresh the page and try again.", store, v.2⟩
    else
      let question := (fd.get "question").getD ""
      let options := (fd.getAll "options").filter (fun o => o ≠ "")
      match validatePollInput question options with
      | some e => ⟨some e, store, v.2⟩
      | none =>
        match env.authErr with
        | some m => ⟨some m, store, v.2⟩
        | none =>
          match env.authUser with
          | none => ⟨some "You must be logged in to update a poll.", store, v.2⟩
          | some u =>
            match env.pollSelectErr with
            | some m => ⟨some m, store, v.2⟩
            | none =>
              match selectPollSingle store.polls pollId with
              | Except.error m => ⟨some m, store, v.2⟩
              | Except.ok existingPoll =>
                if existingPoll.user_id ≠ u.id then
                  ⟨some "You can only update your own polls", store, v.2⟩
                else
                  match env.pollUpdateErr with
                  | some m => ⟨some m, store, v.2⟩
                  | none =>
                    ⟨none,
                     ⟨store.polls.map (fun p =>
                        if p.id = pollId ∧ p.user_id = u.id then
                          ⟨p.id, p.user_id, sanitize question, options.map sanitize⟩
                        else p),
                      store.votes⟩,
                     v.2⟩

/-- `deletePoll` (poll-actions.ts:578-607, second variant): identity and
ownership check, then the delete — this draft performs no CSRF validation at
all and takes no token argument. -/
def deletePollV2 (env : Env) (store : Store) (cs : CsrfState) (id : String) :
    ActionResult :=
  match env.authErr with
  | some m => ⟨some m, store, cs⟩
  | none =>
    match env.authUser with
    | none => ⟨some "You must be logged in to delete a poll.", store, cs⟩
    | some u =>
      match env.pollSelectErr with
      | some m => ⟨some m, store, cs⟩
      | none =>
        match selectPollSingle store.polls id with
        | Except.error m => ⟨some m, store, cs⟩
        | Except.ok poll =>
          if poll.user_id ≠ u.id then
            ⟨some "You can only delete your own polls", store, cs⟩
          else
            match env.pollDeleteErr with
            | some m => ⟨some m, store, cs⟩
            | none =>
              ⟨none, ⟨store.polls.filter (fun p => ¬(p.id = id)), store.votes⟩, cs⟩

/-! ## Admin Gate and helpers
(`src/app/lib/actions/admin-actions.ts`, `src/app/lib/actions/helpers.ts`)

These modules use primitives that abort by throwing (`getAuthenticatedUser`,
`csrfProtection`) or by redirecting (`redirect`), so their operations are
embedded in an `Outcome` that distinguishes a returned result from an
uncaught exception and from a redirect signal. -/

/-- Result of a server action that may also end in an uncaught thrown error or
a framework redirect. -/
inductive Outcome (α : Type) where
  | ok : α → Outcome α
  | thrown : String → Outcome α
  | redirected : String → Outcome α
  deriving Repr, DecidableEq

/-- Is the outcome an uncaught thrown error? -/
def Outcome.isThrown {α : Type} : Outcome α → Bool
  | Outcome.thrown _ => true
  | _ => false

/-- `getAuthenticatedUser` (helpers.ts:5-16): throws `'User not authenticated.'`
when the session resolves no user (the error half of `getUser()` is ignored). -/
def getAuthenticatedUser (env : Env) : Outcome User :=
  match env.authUser with
  | none => Outcome.thrown "User not authenticated."
  | some u => Outcome.ok u

/-- `checkAdminAccess` (admin-actions.ts:11-30): redirects to `/login` on a
`getUser()` error or a missing user, to `/polls` when the user lacks the admin
flag. -/
def checkAdminAccess (env : Env) : Outcome User :=
  match env.authErr, env.authUser with
  | some _, _ => Outcome.redirected "/login"
  | none, none => Outcome.redirected "/login"
  | none, some u =>
    if u.isAdmin = false then Outcome.redirected "/polls" else Outcome.ok u

/-- `adminDeletePoll` (admin-actions.ts:55-80, first variant): admin gate, CSRF
check (failures caught and converted to `{error}`), then an unconditional
delete by id with no ownership filter. -/
def adminDeletePoll (env : Env) (store : Store) (cs : CsrfState) (pollId : String)
    (csrfToken : Option String) (fresh : String) : Outcome ActionResult :=
  match checkAdminAccess env with
  | Outcome.thrown m => Outcome.thrown m
  | Outcome.redirected p => Outcome.redirected p
  | Outcome.ok _u =>
    let t := csrfToken.getD ""
    if t = "" then Outcome.ok ⟨some "Missing security token", store, cs⟩
    else
      let v := validateCsrfToken t fresh cs
      if v.1 = false then
        Outcome.ok ⟨some "Invalid security token. Please refresh the page and try again.",
          store, v.2⟩
      else
        match env.pollDeleteErr with
        | some m => Outcome.ok ⟨some m, store, v.2⟩
        | none =>
          Outcome.ok ⟨none, ⟨store.polls.filter (fun p => ¬(p.id = pollId)), store.votes⟩, v.2⟩

/-- `adminDeletePoll` (admin-actions.ts:124-135, second variant): admin gate
then the unconditional delete — this draft performs no CSRF validation. -/
def adminDeletePollV2 (env : Env) (store : Store) (cs : CsrfState)
    (pollId : String) : Outcome ActionResult :=
  match checkAdminAccess env with
  | Outcome.thrown m => Outcome.thrown m
  | Outcome.redirected p => Outcome.redirected p
  | Outcome.ok _u =>
    match env.pollDeleteErr with
    | some m => Outcome.ok ⟨some m, store, cs⟩
    | none =>
      Outcome.ok ⟨none, ⟨store.polls.filter (fun p => ¬(p.id = pollId)), store.votes⟩, cs⟩

/-- `checkAdminAccess` (helpers.ts:48-59): delegates to the throwing
`getAuthenticatedUser`, then redirects non-admins to `/polls`.  The throw is
not caught here. -/
def checkAdminAccessHelpers (env : Env) : Outcome User :=
  match getAuthenticatedUser env with
  | Outcome.thrown m => Outcome.thrown m
  | Outcome.redirected p => Outcome.redirected p
  | Outcome.ok u =>
    if u.isAdmin = false then Outcome.redirected "/polls" else Outcome.ok u

/-- `adminDeletePoll` (helpers.ts:83-105, third variant): calls the helpers'
`checkAdminAccess` outside any try/catch — so the `'User not authenticated.'`
throw from `getAuthenticatedUser` escapes uncaught — then runs `csrfProtection`
(csrf.ts:49-63, inlined here) inside a try/catch that converts its throws to
`{error}`, reads `poll_id` from the form, and deletes by id. -/
def adminDeletePollHelpers (env : Env) (store : Store) (cs : CsrfState)
    (fd : FormData) (fresh : String) : Outcome ActionResult :=
  match checkAdminAccessHelpers env with
  | Outcome.thrown m => Outcome.thrown m
  | Outcome.redirected p => Outcome.redirected p
  | Outcome.ok _u =>
    let token := (fd.get "csrf_token").getD ""
    if token = "" then Outcome.ok ⟨some "CSRF token missing", store, cs⟩
    else
      let v := validateCsrfToken token fresh cs
      if v.1 = false then Outcome.ok ⟨some "Invalid or expired CSRF token", store, v.2⟩
      else
        let pollId := (fd.get "poll_id").getD ""
        if pollId = "" then Outcome.ok ⟨some "Missing poll_id", store, v.2⟩
        else
          match env.pollDeleteErr with
          | some m => Outcome.ok ⟨some m, store, v.2⟩
          | none =>
            Outcome.ok ⟨none, ⟨store.polls.filter (fun p => ¬(p.id = pollId)), store.votes⟩, v.2⟩

/-! ## Reference definitions for comparison and concrete inputs -/

/-- Reference formulation (following the amended claim's wording, to be
compared with the code-derived `validatePollInput`): the validation checks as
one flat ordered list of (violation condition, error message) pairs — the
missing-question/insufficient-options rule, the question length rule, then for
each option in order its length check followed by its character check, and
last the question's character check. -/
def pollInputChecks (q : String) (opts : List String) : List (Bool × String) :=
  [(decide (q = "" ∨ opts.length < 2), "Please provide a question and at least two options."),
   (decide (q.length > 500), "Question is too long. Maximum 500 characters allowed.")]
  ++ opts.flatMap (fun o =>
      [(decide (o.length > 200), "Option text is too long. Maximum 200 characters allowed."),
       (hasScriptOrJs o, "Invalid characters detected in options.")])
  ++ [(hasScriptOrJs q, "Invalid characters detected in question.")]

/-- The error of the first violated check in `pollInputChecks`, `none` when no
check is violated. -/
def firstViolation (q : String) (opts : List String) : Option String :=
  ((pollInputChecks q opts).find? (fun c => c.fst)).map Prod.snd

/-- A 201-character option, exceeding the 200-character option limit. -/
def longOption : String := String.mk (List.replicate 201 'x')

/-! ## Supporting lemmas -/

/-- On a failed validation the token guard leaves the cookie untouched. -/
theorem validateCsrfToken_snd_of_false (st : CsrfState) (t f : String)
    (h : (validateCsrfToken t f st).1 = false) :
    (validateCsrfToken t f st).2 = st := by
  cases st with
  | none => rfl
  | some stored =>
    unfold validateCsrfToken at h ⊢
    by_cases hc : stored = "" ∨ t = "" ∨ t ≠ stored
    · simp [hc]
    · simp [hc] at h

/-- The per-option loop accepts every list of short, script-free options. -/
theorem optionsCheck_eq_none (opts : List String)
    (h : ∀ o ∈ opts, o.length ≤ 200 ∧ hasScriptOrJs o = false) :
    optionsCheck opts = none := by
  induction opts with
  | nil => rfl
  | cons o rest ih =>
    have ho := h o (List.mem_cons_self o rest)
    unfold optionsCheck
    simp [Nat.not_lt.mpr ho.1, ho.2]
    exact ih (fun o ho' => h o (List.mem_cons_of_mem _ ho'))

/-- Inputs satisfying all the rules pass the inline validation. -/
theorem validatePollInput_eq_none (q : String) (opts : List String)
    (hq : q ≠ "") (hn : 2 ≤ opts.length) (h500 : q.length ≤ 500)
    (hqs : hasScriptOrJs q = false)
    (hopts : ∀ o ∈ opts, o.length ≤ 200 ∧ hasScriptOrJs o = false) :
    validatePollInput q opts = none := by
  unfold validatePollInput
  simp [hq, Nat.not_lt.mpr hn, Nat.not_lt.mpr h500, hqs, optionsCheck_eq_none opts hopts]

/-- The trailing part of `pollInputChecks` scanned by `find?` computes exactly
the per-option loop followed by the question's character check. -/
theorem find_flatMap_eq_optionsCheck (q : String) (opts : List String) :
    (((opts.flatMap (fun o =>
        [(decide (o.length > 200), "Option text is too long. Maximum 200 characters allowed."),
         (hasScriptOrJs o, "Invalid characters detected in options.")])
       ++ [(hasScriptOrJs q, "Invalid characters detected in question.")]).find?
         (fun c => c.fst)).map Prod.snd)
    = (match optionsCheck opts with
       | some e => some e
       | none =>
         if hasScriptOrJs q then some "Invalid characters detected in question." else none) := by
  induction opts with
  | nil =>
    by_cases h : hasScriptOrJs q = true <;>
      simp [optionsCheck, List.find?, h]
  | cons o rest ih =>
    simp only [List.flatMap_cons, List.cons_append, List.append_assoc, List.nil_append]
    by_cases h200 : o.length > 200
    · rw [List.find?_cons_of_pos _ (by simp [h200])]
      simp [optionsCheck, h200]
    · rw [List.find?_cons_of_neg _ (by simp [h200])]
      by_cases hs : hasScriptOrJs o = true
      · rw [List.find?_cons_of_pos _ (by simp [hs])]
        simp [optionsCheck, h200, hs]
      · rw [List.find?_cons_of_neg _ (by simp [hs])]
        rw [ih]
        simp only [optionsCheck, h200, if_false, hs]
        simp [h200, hs]

/-- Appending an entry under a different key does not change `get`. -/
theorem FormData.get_append_ne (l : List (String × String)) (e : String × String)
    (k : String) (h : ¬ e.fst = k) :
    FormData.get ⟨l ++ [e]⟩ k = FormData.get ⟨l⟩ k := by
  unfold FormData.get
  induction l with
  | nil => simp [List.find?, h]
  | cons a rest ih =>
    by_cases ha : a.fst = k
    · simp only [List.cons_append]
      rw [List.find?_cons_of_pos _ (by simp [ha]), List.find?_cons_of_pos _ (by simp [ha])]
    · simp only [List.cons_append]
      rw [List.find?_cons_of_neg _ (by simp [ha]), List.find?_cons_of_neg _ (by simp [ha])]
      exact ih

/-- Appending an entry under a different key does not change `getAll`. -/
theorem FormData.getAll_append_ne (l : List (String × String)) (e : String × String)
    (k : String) (h : ¬ e.fst = k) :
    FormData.getAll ⟨l ++ [e]⟩ k = FormData.getAll ⟨l⟩ k := by
  unfold FormData.getAll
  rw [List.filter_append]
  simp [List.filter, h]

/-- `updatePoll` reads only the `csrf_token` and `question` fields and the
`options` values of its form payload. -/
theorem updatePoll_congr (env : Env) (store : Store) (cs : CsrfState) (pid : String)
    (fd fd' : FormData) (f : String)
    (h1 : fd.get "csrf_token" = fd'.get "csrf_token")
    (h2 : fd.get "question" = fd'.get "question")
    (h3 : fd.getAll "options" = fd'.getAll "options") :
    updatePoll env store cs pid fd f = updatePoll env store cs pid fd' f := by
  simp only [updatePoll, h1, h2, h3]

/-! ## Claims -/

/-- **C6** (counterexample): the original claim predicts the option-length
error for a question with a first option containing `<script` and a second
option longer than 200 characters; the code returns the character error, since
the loop finishes both checks for an earlier option before looking at a later
one. -/
theorem c6_counterexample :
    validatePollInput "q" ["<script", longOption]
        = some "Invalid characters detected in options." ∧
      some "Invalid characters detected in options."
        ≠ some "Option text is too long. Maximum 200 characters allowed." := by
  constructor
  · rfl
  · decide

/-- **C6** (amended): for every `(question, options)` input, the error returned
by the poll input validation is the first violated check in the order: missing
question or fewer than two options; question longer than 500; then for each
option in submission order, that option longer than 200 followed by that
option containing `<script` or `javascript:`; and finally the question
containing `<script` or `javascript:`. -/
theorem validatePollInput_first_violation (q : String) (opts : List String) :
    validatePollInput q opts = firstViolation q opts := by
  unfold validatePollInput firstViolation pollInputChecks
  simp only [List.cons_append, List.append_assoc, List.nil_append]
  by_cases h1 : q = "" ∨ opts.length < 2
  · rw [List.find?_cons_of_pos _ (by simp [h1])]
    simp [h1]
  · rw [List.find?_cons_of_neg _ (by simp [h1])]
    by_cases h2 : q.length > 500
    · rw [List.find?_cons_of_pos _ (by simp [h2])]
      simp [h1, h2]
    · rw [List.find?_cons_of_neg _ (by simp [h2])]
      simp only [h1, h2, if_false]
      rw [← find_flatMap_eq_optionsCheck q opts]

/-- **C4**: a token issued by `generateCsrfToken` is accepted at most once:
after a successful `validateCsrfToken t`, an immediately repeated
`validateCsrfToken` with the same `t` fails, because success stored the fresh
replacement token (the hypothesis `f₁ ≠ t` is the freshness of the random
replacement). -/
theorem csrf_token_single_use (st : CsrfState) (t f₁ f₂ : String)
    (ht : t ≠ "") (hf : f₁ ≠ t) :
    (validateCsrfToken t f₁ (generateCsrfToken t st).2).1 = true ∧
    (validateCsrfToken t f₂ (validateCsrfToken t f₁ (generateCsrfToken t st).2).2).1
      = false := by
  constructor
  · simp [generateCsrfToken, validateCsrfToken, ht]
  · simp [generateCsrfToken, validateCsrfToken, ht, Ne.symm hf]

/-- Witness for C4 at concrete tokens. -/
theorem csrf_token_single_use_witness :
    (validateCsrfToken "aa" "bb" (generateCsrfToken "aa" none).2).1 = true ∧
    (validateCsrfToken "aa" "cc" (validateCsrfToken "aa" "bb" (generateCsrfToken "aa" none).2).2).1
      = false :=
  csrf_token_single_use none "aa" "bb" "cc" (by decide) (by decide)

/-- **C10**: whenever `validateCsrfToken` returns `false` the stored cookie is
left exactly as it was, and a later call presenting the correct stored value
still succeeds. -/
theorem csrf_failure_leaves_token (st : CsrfState) (t f : String)
    (h : (validateCsrfToken t f st).1 = false) :
    (validateCsrfToken t f st).2 = st ∧
    ∀ s f₂, st = some s → s ≠ "" → (validateCsrfToken s f₂ st).1 = true := by
  refine ⟨validateCsrfToken_snd_of_false st t f h, ?_⟩
  intro s f₂ hs hne
  subst hs
  simp [validateCsrfToken, hne]

/-- Witness for C10 at a concrete mismatching candidate. -/
theorem csrf_failure_leaves_token_witness :
    (validateCsrfToken "zz" "ff" (some "aa")).2 = some "aa" ∧
    ∀ s f₂, (some "aa" : CsrfState) = some s → s ≠ "" →
      (validateCsrfToken s f₂ (some "aa")).1 = true :=
  csrf_failure_leaves_token (some "aa") "zz" "ff" (by decide)

/-- **C3** (counterexample): with a valid token, a poll of two options and an
out-of-range index 5, an unauthenticated call fails with the login error, not
with `'Invalid option selected'` — the result is not independent of the
authentication state. -/
theorem c3_counterexample :
    (submitVote (envOk none) ⟨[⟨"p1", "owner", "Q", ["a", "b"]⟩], []⟩ (some "tok")
        "p1" 5 (some "tok") "f").error = some "You must be logged in to vote." ∧
      some "You must be logged in to vote." ≠ some "Invalid option selected" :=
  ⟨rfl, by decide⟩

/-- **C3** (amended): for an authenticated caller with a valid CSRF token who
has not yet voted on the existing target poll, every `optionIndex` outside
`[0, poll.options.length)` makes `submitVote` fail with
`'Invalid option selected'` and leaves the store unchanged. -/
theorem submitVote_invalid_option (env : Env) (store : Store) (pid : String)
    (idx : Int) (t f : String) (u : User) (poll : Poll)
    (ht : t ≠ "")
    (hau : env.authUser = some u)
    (hvs : env.voteSelectErr = none)
    (hps : env.pollSelectErr = none)
    (hnv : votesFor store.votes pid u.id = [])
    (hpoll : store.polls.filter (fun p => p.id = pid) = [poll])
    (hidx : idx < 0 ∨ (poll.options.length : Int) ≤ idx) :
    submitVote env store (some t) pid idx (some t) f
      = ⟨some "Invalid option selected", store, some f⟩ := by
  unfold submitVote
  simp [validateCsrfToken, generateCsrfToken, ht, hau, hvs, hnv, hps, selectPollSingle,
    hpoll, hidx]

/-- Witness for the amended C3 at a concrete out-of-range vote. -/
theorem submitVote_invalid_option_witness :
    submitVote (envOk (some ⟨"alice", false⟩)) ⟨[⟨"p1", "owner", "Q", ["a", "b"]⟩], []⟩
        (some "tok") "p1" 5 (some "tok") "f"
      = ⟨some "Invalid option selected", ⟨[⟨"p1", "owner", "Q", ["a", "b"]⟩], []⟩, some "f"⟩ :=
  submitVote_invalid_option (envOk (some ⟨"alice", false⟩))
    ⟨[⟨"p1", "owner", "Q", ["a", "b"]⟩], []⟩ "p1" 5 "tok" "f" ⟨"alice", false⟩
    ⟨"p1", "owner", "Q", ["a", "b"]⟩ (by decide) rfl rfl rfl rfl (by decide) (by decide)

/-- **C5**: two sequential `submitVote` calls by the same user on the same poll
(the second presenting the token the first call's rotation issued): the first
succeeds and inserts exactly one vote row, the second fails with
`'You have already voted on this poll.'` and changes nothing, so exactly one
vote row for the `(poll_id, user_id)` pair remains. -/
theorem submitVote_once_per_user (env : Env) (store : Store) (pid : String)
    (idx idx₂ : Int) (t f₁ f₂ : String) (u : User) (poll : Poll)
    (ht : t ≠ "") (hf₁ : f₁ ≠ "")
    (hau : env.authUser = some u) (hvs : env.voteSelectErr = none)
    (hps : env.pollSelectErr = none) (hvi : env.voteInsertErr = none)
    (hnv : votesFor store.votes pid u.id = [])
    (hpoll : store.polls.filter (fun p => p.id = pid) = [poll])
    (h0 : 0 ≤ idx) (hlt : idx < (poll.options.length : Int)) :
    submitVote env store (some t) pid idx (some t) f₁
        = ⟨none, ⟨store.polls, store.votes ++ [⟨pid, u.id, idx⟩]⟩, some f₁⟩ ∧
    submitVote env ⟨store.polls, store.votes ++ [⟨pid, u.id, idx⟩]⟩ (some f₁) pid idx₂
        (some f₁) f₂
        = ⟨some "You have already voted on this poll.",
           ⟨store.polls, store.votes ++ [⟨pid, u.id, idx⟩]⟩, some f₂⟩ ∧
    (votesFor (store.votes ++ [⟨pid, u.id, idx⟩]) pid u.id).length = 1 := by
  have hone : votesFor (store.votes ++ [⟨pid, u.id, idx⟩]) pid u.id = [⟨pid, u.id, idx⟩] := by
    unfold votesFor at hnv ⊢
    rw [List.filter_append, hnv]
    simp
  refine ⟨?_, ?_, ?_⟩
  · unfold submitVote
    simp [validateCsrfToken, generateCsrfToken, ht, hau, hvs, hnv, hps, selectPollSingle,
      hpoll, hvi, Int.not_lt.mpr h0, Int.not_le.mpr hlt]
  · unfold submitVote
    simp [validateCsrfToken, generateCsrfToken, hf₁, hau, hvs, hone]
  · rw [hone]
    rfl

/-- Witness for C5 at a concrete sequential double vote. -/
theorem submitVote_once_per_user_witness :
    submitVote (envOk (some ⟨"alice", false⟩)) ⟨[⟨"p1", "bob", "Q", ["a", "b"]⟩], []⟩
        (some "t1") "p1" 0 (some "t1") "t2"
        = ⟨none, ⟨[⟨"p1", "bob", "Q", ["a", "b"]⟩], [⟨"p1", "alice", 0⟩]⟩, some "t2"⟩ ∧
    submitVote (envOk (some ⟨"alice", false⟩))
        ⟨[⟨"p1", "bob", "Q", ["a", "b"]⟩], [] ++ [⟨"p1", "alice", 0⟩]⟩ (some "t2") "p1" 1
        (some "t2") "t3"
        = ⟨some "You have already voted on this poll.",
           ⟨[⟨"p1", "bob", "Q", ["a", "b"]⟩], [] ++ [⟨"p1", "alice", 0⟩]⟩, some "t3"⟩ ∧
    (votesFor ([] ++ [⟨"p1", "alice", 0⟩]) "p1" "alice").length = 1 := by
  have h := submitVote_once_per_user (envOk (some ⟨"alice", false⟩))
    ⟨[⟨"p1", "bob", "Q", ["a", "b"]⟩], []⟩ "p1" 0 1 "t1" "t2" "t3" ⟨"alice", false⟩
    ⟨"p1", "bob", "Q", ["a", "b"]⟩ (by decide) (by decide) rfl rfl rfl rfl rfl rfl
    (by decide) (by decide)
  exact h

/-- **C1**: an identity whose id differs from the target poll's `user_id` gets
the ownership error from both `updatePoll` and `deletePoll` (and from the
second `deletePoll` draft), the store is left unchanged, and the decision is
independent of any client-supplied `user_id` form field: appending a forged
`user_id` entry to the payload changes nothing — the check uses only the
session identity and the freshly re-fetched row. -/
theorem ownership_blocks_foreign_mutation (env : Env) (store : Store)
    (pid t f q : String) (fd : FormData) (opts : List String) (u : User) (poll : Poll)
    (ht : t ≠ "")
    (hg1 : fd.get "csrf_token" = some t)
    (hg2 : fd.get "question" = some q)
    (hg3 : (fd.getAll "options").filter (fun o => o ≠ "") = opts)
    (hvalid : validatePollInput q opts = none)
    (hae : env.authErr = none) (hau : env.authUser = some u)
    (hps : env.pollSelectErr = none)
    (hpoll : store.polls.filter (fun p => p.id = pid) = [poll])
    (hown : poll.user_id ≠ u.id) :
    updatePoll env store (some t) pid fd f
        = ⟨some "You can only update your own polls", store, some f⟩ ∧
    (∀ v, updatePoll env store (some t) pid ⟨fd.entries ++ [("user_id", v)]⟩ f
        = updatePoll env store (some t) pid fd f) ∧
    deletePoll env store (some t) pid (some t) f
        = ⟨some "You can only delete your own polls", store, some f⟩ ∧
    deletePollV2 env store (some t) pid
        = ⟨some "You can only delete your own polls", store, some t⟩ := by
  simp only [ne_eq, decide_not] at hg3
  refine ⟨?_, ?_, ?_, ?_⟩
  · simp [updatePoll, hg1, hg2, hg3, validateCsrfToken, generateCsrfToken, ht, hvalid,
      hae, hau, hps, selectPollSingle, hpoll, hown]
  · intro v
    exact updatePoll_congr env store (some t) pid ⟨fd.entries ++ [("user_id", v)]⟩ fd f
      (FormData.get_append_ne fd.entries ("user_id", v) "csrf_token" (by simp))
      (FormData.get_append_ne fd.entries ("user_id", v) "question" (by simp))
      (FormData.getAll_append_ne fd.entries ("user_id", v) "options" (by simp))
  · simp [deletePoll, validateCsrfToken, generateCsrfToken, ht, hae, hau, hps,
      selectPollSingle, hpoll, hown]
  · simp [deletePollV2, hae, hau, hps, selectPollSingle, hpoll, hown]

/-- Witness for C1 at a concrete non-owner caller. -/
theorem ownership_blocks_foreign_mutation_witness :
    updatePoll (envOk (some ⟨"mallory", false⟩)) ⟨[⟨"p1", "owner", "Q0", ["x", "y"]⟩], []⟩
        (some "t1") "p1"
        ⟨[("csrf_token", "t1"), ("question", "Q"), ("options", "a"), ("options", "b")]⟩ "t2"
        = ⟨some "You can only update your own polls",
           ⟨[⟨"p1", "owner", "Q0", ["x", "y"]⟩], []⟩, some "t2"⟩ ∧
    (∀ v, updatePoll (envOk (some ⟨"mallory", false⟩))
        ⟨[⟨"p1", "owner", "Q0", ["x", "y"]⟩], []⟩ (some "t1") "p1"
        ⟨[("csrf_token", "t1"), ("question", "Q"), ("options", "a"), ("options", "b")]
           ++ [("user_id", v)]⟩ "t2"
        = updatePoll (envOk (some ⟨"mallory", false⟩))
        ⟨[⟨"p1", "owner", "Q0", ["x", "y"]⟩], []⟩ (some "t1") "p1"
        ⟨[("csrf_token", "t1"), ("question", "Q"), ("options", "a"), ("options", "b")]⟩ "t2") ∧
    deletePoll (envOk (some ⟨"mallory", false⟩)) ⟨[⟨"p1", "owner", "Q0", ["x", "y"]⟩], []⟩
        (some "t1") "p1" (some "t1") "t2"
        = ⟨some "You can only delete your own polls",
           ⟨[⟨"p1", "owner", "Q0", ["x", "y"]⟩], []⟩, some "t2"⟩ ∧
    deletePollV2 (envOk (some ⟨"mallory", false⟩)) ⟨[⟨"p1", "owner", "Q0", ["x", "y"]⟩], []⟩
        (some "t1") "p1"
        = ⟨some "You can only delete your own polls",
           ⟨[⟨"p1", "owner", "Q0", ["x", "y"]⟩], []⟩, some "t1"⟩ :=
  ownership_blocks_foreign_mutation (envOk (some ⟨"mallory", false⟩))
    ⟨[⟨"p1", "owner", "Q0", ["x", "y"]⟩], []⟩ "p1" "t1" "t2" "Q"
    ⟨[("csrf_token", "t1"), ("question", "Q"), ("options", "a"), ("options", "b")]⟩
    ["a", "b"] ⟨"mallory", false⟩ ⟨"p1", "owner", "Q0", ["x", "y"]⟩
    (by decide) rfl rfl rfl rfl rfl rfl rfl rfl (by decide)

/-- **C2** (counterexample): the second `deletePoll` variant
(poll-actions.ts:578-607) and the second `adminDeletePoll` variant
(admin-actions.ts:124-135) take no CSRF token and perform no CSRF check: with
no token supplied anywhere (no cookie, no argument) they return no error and
the poll row is deleted. -/
theorem c2_counterexample :
    (deletePollV2 (envOk (some ⟨"alice", false⟩))
        ⟨[⟨"p1", "alice", "Q", ["a", "b"]⟩], []⟩ none "p1").error = none ∧
    (deletePollV2 (envOk (some ⟨"alice", false⟩))
        ⟨[⟨"p1", "alice", "Q", ["a", "b"]⟩], []⟩ none "p1").store.polls = [] ∧
    adminDeletePollV2 (envOk (some ⟨"root", true⟩))
        ⟨[⟨"p1", "alice", "Q", ["a", "b"]⟩], []⟩ none "p1"
      = Outcome.ok ⟨none, ⟨[], []⟩, none⟩ :=
  ⟨rfl, rfl, rfl⟩

/-- **C2** (amended): for the CSRF-validating implementations — `deletePoll`
(first variant), `adminDeletePoll` (admin-actions first variant) and the
helpers' `adminDeletePoll` — a missing or non-matching token makes the
operation return an error with the stored rows unchanged; the second
`deletePoll`/`adminDeletePoll` variants perform no CSRF check at all (see the
counterexample). -/
theorem csrf_failure_blocks_delete (env : Env) (store : Store) (cs : CsrfState)
    (pid f : String) (tokOpt : Option String) (fd : FormData) (u : User)
    (hbad : tokOpt.getD "" = "" ∨ (validateCsrfToken (tokOpt.getD "") f cs).1 = false)
    (hae : env.authErr = none) (hau : env.authUser = some u) (hadm : u.isAdmin = true)
    (hfd : fd.get "csrf_token" = tokOpt) :
    ((deletePoll env store cs pid tokOpt f).error.isSome = true ∧
     (deletePoll env store cs pid tokOpt f).store = store) ∧
    (∀ r, adminDeletePoll env store cs pid tokOpt f = Outcome.ok r →
        r.error.isSome = true ∧ r.store = store) ∧
    (∀ r, adminDeletePollHelpers env store cs fd f = Outcome.ok r →
        r.error.isSome = true ∧ r.store = store) := by
  by_cases hz : tokOpt.getD "" = ""
  · refine ⟨?_, ?_, ?_⟩
    · simp [deletePoll, hz]
    · intro r hr
      simp [adminDeletePoll, checkAdminAccess, hae, hau, hadm, hz] at hr
      subst hr
      exact ⟨rfl, rfl⟩
    · intro r hr
      simp [adminDeletePollHelpers, checkAdminAccessHelpers, getAuthenticatedUser,
        hau, hadm, hfd, hz] at hr
      subst hr
      exact ⟨rfl, rfl⟩
  · have hv : (validateCsrfToken (tokOpt.getD "") f cs).1 = false := by
      rcases hbad with h | h
      · exact absurd h hz
      · exact h
    refine ⟨?_, ?_, ?_⟩
    · simp [deletePoll, hz, hv]
    · intro r hr
      simp [adminDeletePoll, checkAdminAccess, hae, hau, hadm, hz, hv] at hr
      subst hr
      exact ⟨rfl, rfl⟩
    · intro r hr
      simp [adminDeletePollHelpers, checkAdminAccessHelpers, getAuthenticatedUser,
        hau, hadm, hfd, hz, hv] at hr
      subst hr
      exact ⟨rfl, rfl⟩

/-- Witness for the amended C2 at a concrete mismatching token. -/
theorem csrf_failure_blocks_delete_witness :
    ((deletePoll (envOk (some ⟨"root", true⟩)) ⟨[⟨"p1", "root", "Q", ["a", "b"]⟩], []⟩
        (some "good") "p1" (some "bad") "f").error.isSome = true ∧
     (deletePoll (envOk (some ⟨"root", true⟩)) ⟨[⟨"p1", "root", "Q", ["a", "b"]⟩], []⟩
        (some "good") "p1" (some "bad") "f").store = ⟨[⟨"p1", "root", "Q", ["a", "b"]⟩], []⟩) ∧
    (∀ r, adminDeletePoll (envOk (some ⟨"root", true⟩)) ⟨[⟨"p1", "root", "Q", ["a", "b"]⟩], []⟩
        (some "good") "p1" (some "bad") "f" = Outcome.ok r →
        r.error.isSome = true ∧ r.store = ⟨[⟨"p1", "root", "Q", ["a", "b"]⟩], []⟩) ∧
    (∀ r, adminDeletePollHelpers (envOk (some ⟨"root", true⟩))
        ⟨[⟨"p1", "root", "Q", ["a", "b"]⟩], []⟩ (some "good") ⟨[("csrf_token", "bad")]⟩ "f"
        = Outcome.ok r →
        r.error.isSome = true ∧ r.store = ⟨[⟨"p1", "root", "Q", ["a", "b"]⟩], []⟩) :=
  csrf_failure_blocks_delete (envOk (some ⟨"root", true⟩))
    ⟨[⟨"p1", "root", "Q", ["a", "b"]⟩], []⟩ (some "good") "p1" "f" (some "bad")
    ⟨[("csrf_token", "bad")]⟩ ⟨"root", true⟩ (by right; decide) rfl rfl rfl rfl

/-- Extracting the repeated `options` fields of the canonical create form
yields exactly the submitted options. -/
theorem getAll_options_build (t q : String) (opts : List String) :
    FormData.getAll ⟨("csrf_token", t) :: ("question", q) :: opts.map (fun o => ("options", o))⟩
      "options" = opts := by
  unfold FormData.getAll
  simp [List.filter_map, Function.comp, List.map_map]

/-- **C7**: for every valid input — non-empty question of at most 500
characters, at least two non-empty options of at most 200 characters, no
`<script`/`javascript:` anywhere — `createPoll` succeeds and stores exactly
the escape-then-trim sanitized copies of the question and of each option, in a
row owned by the authenticated caller. -/
theorem createPoll_stores_sanitized (env : Env) (store : Store)
    (t f nid q : String) (opts : List String) (u : User)
    (ht : t ≠ "") (hq : q ≠ "") (hn : 2 ≤ opts.length) (h500 : q.length ≤ 500)
    (hne : ∀ o ∈ opts, ¬ o = "")
    (hov : ∀ o ∈ opts, o.length ≤ 200 ∧ hasScriptOrJs o = false)
    (hqs : hasScriptOrJs q = false)
    (hae : env.authErr = none) (hau : env.authUser = some u)
    (hpi : env.pollInsertErr = none) :
    createPoll env store (some t)
        ⟨("csrf_token", t) :: ("question", q) :: opts.map (fun o => ("options", o))⟩ f nid
      = ⟨none, ⟨store.polls ++ [⟨nid, u.id, sanitize q, opts.map sanitize⟩], store.votes⟩,
         some f⟩ := by
  have hval := validatePollInput_eq_none q opts hq hn h500 hqs hov
  have hga := getAll_options_build t q opts
  have hfil : List.filter (fun o => !decide (o = "")) opts = opts := by
    rw [List.filter_eq_self]
    intro o ho
    simpa using hne o ho
  simp [createPoll, FormData.get, List.find?, validateCsrfToken, generateCsrfToken,
    ht, hga, hfil, hval, hae, hau, hpi]

/-- Witness for C7 at a concrete valid submission. -/
theorem createPoll_stores_sanitized_witness :
    createPoll (envOk (some ⟨"alice", false⟩)) ⟨[], []⟩ (some "t1")
        ⟨("csrf_token", "t1") :: ("question", " a<b> ") :: ["x", "y"].map (fun o => ("options", o))⟩
        "t2" "p9"
      = ⟨none, ⟨[] ++ [⟨"p9", "alice", sanitize " a<b> ", ["x", "y"].map sanitize⟩], []⟩,
         some "t2"⟩ :=
  createPoll_stores_sanitized (envOk (some ⟨"alice", false⟩)) ⟨[], []⟩ "t1" "t2" "p9"
    " a<b> " ["x", "y"] ⟨"alice", false⟩ (by decide) (by decide) (by decide) (by decide)
    (by decide) (by decide) (by decide) rfl rfl rfl

/-- A whitespace character is not `<`, `>` or `j`. -/
theorem ws_not_special (c : Char) (h : isJsWs c = true) :
    ¬ c = '<' ∧ ¬ c = '>' ∧ ¬ c = 'j' := by
  simp only [isJsWs, decide_eq_true_eq] at h
  rcases h with h | h | h | h | h | h | h <;> subst h <;>
    exact ⟨by decide, by decide, by decide⟩

/-- Replacement is the identity on lists free of the replaced character. -/
theorem replaceChar_eq_self (t : Char) (r : List Char) (l : List Char)
    (h : ∀ c ∈ l, ¬ c = t) :
    replaceChar t r l = l := by
  induction l with
  | nil => rfl
  | cons c rest ih =>
    have hc := h c (List.mem_cons_self c rest)
    have ih' := ih (fun x hx => h x (List.mem_cons_of_mem _ hx))
    simp only [replaceChar, List.flatMap_cons] at ih' ⊢
    rw [if_neg hc, ih']
    rfl

/-- Trimming a list of whitespace yields the empty list. -/
theorem jsTrim_all_ws (l : List Char) (h : ∀ c ∈ l, isJsWs c = true) :
    jsTrim l = [] := by
  unfold jsTrim
  rw [List.dropWhile_eq_nil_iff.mpr h]
  rfl

/-- Sanitizing a whitespace-only string stores the empty string. -/
theorem sanitize_all_ws (s : String) (h : ∀ c ∈ s.data, isJsWs c = true) :
    sanitize s = "" := by
  unfold sanitize
  rw [replaceChar_eq_self _ _ _ (fun c hc => (ws_not_special c (h c hc)).1),
    replaceChar_eq_self _ _ _ (fun c hc => (ws_not_special c (h c hc)).2.1),
    jsTrim_all_ws _ h]

/-- A pattern whose first character never occurs in the text is not a
substring of it. -/
theorem isSubList_head_false (p : Char) (ps l : List Char) (h : ∀ c ∈ l, ¬ c = p) :
    isSubList (p :: ps) l = false := by
  induction l with
  | nil => rfl
  | cons c rest ih =>
    have hc := h c (List.mem_cons_self c rest)
    have hpc : ¬ p = c := fun hh => hc hh.symm
    have ih' := ih (fun x hx => h x (List.mem_cons_of_mem _ hx))
    simp [isSubList, isPrefixList, hpc, ih']

/-- Whitespace-only strings pass the script denylist. -/
theorem hasScriptOrJs_all_ws (s : String) (h : ∀ c ∈ s.data, isJsWs c = true) :
    hasScriptOrJs s = false := by
  unfold hasScriptOrJs jsIncludes
  have h1 : "<script".data = '<' :: "script".data := rfl
  have h2 : "javascript:".data = 'j' :: "avascript:".data := rfl
  rw [h1, h2, isSubList_head_false _ _ _ (fun c hc => (ws_not_special c (h c hc)).1),
    isSubList_head_false _ _ _ (fun c hc => (ws_not_special c (h c hc)).2.2)]
  rfl

/-- An entry under a different key in the middle does not change `get`. -/
theorem FormData.get_middle_ne (l₁ l₂ : List (String × String)) (e : String × String)
    (k : String) (h : ¬ e.fst = k) :
    FormData.get ⟨l₁ ++ e :: l₂⟩ k = FormData.get ⟨l₁ ++ l₂⟩ k := by
  unfold FormData.get
  induction l₁ with
  | nil =>
    simp only [List.nil_append]
    rw [List.find?_cons_of_neg _ (by simp [h])]
  | cons a rest ih =>
    by_cases ha : a.fst = k
    · simp only [List.cons_append]
      rw [List.find?_cons_of_pos _ (by simp [ha]), List.find?_cons_of_pos _ (by simp [ha])]
    · simp only [List.cons_append]
      rw [List.find?_cons_of_neg _ (by simp [ha]), List.find?_cons_of_neg _ (by simp [ha])]
      exact ih

/-- An extra empty `options` value in the middle of the payload is invisible
after the `filter(Boolean)` step. -/
theorem getAll_filter_middle (l₁ l₂ : List (String × String)) :
    (FormData.getAll ⟨l₁ ++ ("options", "") :: l₂⟩ "options").filter (fun o => o ≠ "")
      = (FormData.getAll ⟨l₁ ++ l₂⟩ "options").filter (fun o => o ≠ "") := by
  unfold FormData.getAll
  simp [List.filter_append, List.filter_cons, List.map_append]

/-- `createPoll` reads only the `csrf_token` and `question` fields and the
non-empty `options` values of its form payload. -/
theorem createPoll_congr (env : Env) (store : Store) (cs : CsrfState)
    (fd fd' : FormData) (f nid : String)
    (h1 : fd.get "csrf_token" = fd'.get "csrf_token")
    (h2 : fd.get "question" = fd'.get "question")
    (h3 : (fd.getAll "options").filter (fun o => o ≠ "")
        = (fd'.getAll "options").filter (fun o => o ≠ "")) :
    createPoll env store cs fd f nid = createPoll env store cs fd' f nid := by
  simp only [createPoll, h1, h2, h3]

/-- **C9**: a whitespace-only question is truthy and passes validation, a
whitespace-only option passes every option check, and after the
escape-then-trim sanitization both are stored as the empty string; options
submitted as the exact empty string are silently removed by `filter(Boolean)`
before the two-options check — inserting an extra empty `options` value
anywhere in the payload never changes the outcome — rather than being
rejected with an error. -/
theorem whitespace_poll_inputs (env : Env) (store : Store)
    (t f nid q o₁ o₂ : String) (u : User)
    (ht : t ≠ "")
    (hqd : q.data ≠ []) (hqw : ∀ c ∈ q.data, isJsWs c = true) (hq500 : q.length ≤ 500)
    (ho₁d : o₁.data ≠ []) (ho₁w : ∀ c ∈ o₁.data, isJsWs c = true) (ho₁200 : o₁.length ≤ 200)
    (ho₂ : ¬ o₂ = "") (ho₂200 : o₂.length ≤ 200) (ho₂s : hasScriptOrJs o₂ = false)
    (hae : env.authErr = none) (hau : env.authUser = some u)
    (hpi : env.pollInsertErr = none) :
    createPoll env store (some t)
        ⟨[("csrf_token", t), ("question", q), ("options", o₁), ("options", o₂)]⟩ f nid
      = ⟨none, ⟨store.polls ++ [⟨nid, u.id, "", ["", sanitize o₂]⟩], store.votes⟩, some f⟩ ∧
    (∀ (l₁ l₂ : List (String × String)) (env' : Env) (store' : Store) (cs' : CsrfState)
        (f' nid' : String),
      createPoll env' store' cs' ⟨l₁ ++ ("options", "") :: l₂⟩ f' nid'
        = createPoll env' store' cs' ⟨l₁ ++ l₂⟩ f' nid') := by
  have hq : q ≠ "" := fun hs => hqd (by rw [hs])
  have ho₁ : ¬ o₁ = "" := fun hs => ho₁d (by rw [hs])
  have hqs := hasScriptOrJs_all_ws q hqw
  have ho₁s := hasScriptOrJs_all_ws o₁ ho₁w
  have hsq := sanitize_all_ws q hqw
  have hso₁ := sanitize_all_ws o₁ ho₁w
  have hval : validatePollInput q [o₁, o₂] = none := by
    refine validatePollInput_eq_none q [o₁, o₂] hq (by simp) hq500 hqs ?_
    intro o ho
    simp only [List.mem_cons, List.mem_singleton, List.not_mem_nil, or_false] at ho
    rcases ho with rfl | rfl
    · exact ⟨ho₁200, ho₁s⟩
    · exact ⟨ho₂200, ho₂s⟩
  constructor
  · simp [createPoll, FormData.get, FormData.getAll, List.find?, List.filter,
      validateCsrfToken, generateCsrfToken, ht, ho₁, ho₂, hval, hae, hau, hpi, hsq, hso₁]
  · intro l₁ l₂ env' store' cs' f' nid'
    exact createPoll_congr env' store' cs' ⟨l₁ ++ ("options", "") :: l₂⟩ ⟨l₁ ++ l₂⟩ f' nid'
      (FormData.get_middle_ne l₁ l₂ ("options", "") "csrf_token" (by simp))
      (FormData.get_middle_ne l₁ l₂ ("options", "") "question" (by simp))
      (getAll_filter_middle l₁ l₂)

/-- Witness for C9 at a concrete whitespace question and option. -/
theorem whitespace_poll_inputs_witness :
    createPoll (envOk (some ⟨"alice", false⟩)) ⟨[], []⟩ (some "t1")
        ⟨[("csrf_token", "t1"), ("question", " "), ("options", "\t"), ("options", "b")]⟩
        "t2" "p9"
      = ⟨none, ⟨[] ++ [⟨"p9", "alice", "", ["", sanitize "b"]⟩], []⟩, some "t2"⟩ ∧
    (∀ (l₁ l₂ : List (String × String)) (env' : Env) (store' : Store) (cs' : CsrfState)
        (f' nid' : String),
      createPoll env' store' cs' ⟨l₁ ++ ("options", "") :: l₂⟩ f' nid'
        = createPoll env' store' cs' ⟨l₁ ++ l₂⟩ f' nid') :=
  whitespace_poll_inputs (envOk (some ⟨"alice", false⟩)) ⟨[], []⟩ "t1" "t2" "p9"
    " " "\t" "b" ⟨"alice", false⟩ (by decide) (by decide) (by decide) (by decide)
    (by decide) (by decide) (by decide) (by decide) (by decide) (by decide) rfl rfl rfl

/-- The admin-actions gate never throws: it redirects or returns the user. -/
theorem checkAdminAccess_isThrown (env : Env) :
    (checkAdminAccess env).isThrown = false := by
  unfold checkAdminAccess
  cases env.authErr <;> cases env.authUser <;>
    first
      | rfl
      | (rename_i u
         by_cases h : u.isAdmin = false <;> simp [h, Outcome.isThrown])

/-- **C8** (counterexample): calling the helpers-module `adminDeletePoll` with
no authenticated session does not return a structured `{error}` result: the
`'User not authenticated.'` error thrown by `getAuthenticatedUser` escapes the
operation boundary uncaught. -/
theorem c8_counterexample :
    adminDeletePollHelpers (envOk none) ⟨[], []⟩ none ⟨[]⟩ "f"
      = Outcome.thrown "User not authenticated." := rfl

/-- **C8** (amended): the poll-actions operations and the admin-actions
`adminDeletePoll` variants convert every internal failure into a structured
`{error}` result (page-level gate failures surface as redirects, never as
thrown errors), but the helpers-module `adminDeletePoll` propagates an
uncaught `'User not authenticated.'` exception exactly when the session
resolves no user. -/
theorem mutation_boundary_exceptions :
    (∀ (env : Env) (store : Store) (cs : CsrfState) (pid : String)
        (tok : Option String) (f : String),
      (adminDeletePoll env store cs pid tok f).isThrown = false) ∧
    (∀ (env : Env) (store : Store) (cs : CsrfState) (pid : String),
      (adminDeletePollV2 env store cs pid).isThrown = false) ∧
    (∀ (env : Env) (store : Store) (cs : CsrfState) (fd : FormData) (f : String),
      (adminDeletePollHelpers env store cs fd f).isThrown
        = decide (env.authUser = none)) := by
  refine ⟨?_, ?_, ?_⟩
  · intro env store cs pid tok f
    unfold adminDeletePoll
    cases h : checkAdminAccess env with
    | thrown m =>
      have hx := checkAdminAccess_isThrown env
      rw [h] at hx
      exact absurd hx (by simp [Outcome.isThrown])
    | redirected p => rfl
    | ok u =>
      dsimp only
      split
      · rfl
      · split
        · rfl
        · cases env.pollDeleteErr <;> rfl
  · intro env store cs pid
    unfold adminDeletePollV2
    cases h : checkAdminAccess env with
    | thrown m =>
      have hx := checkAdminAccess_isThrown env
      rw [h] at hx
      exact absurd hx (by simp [Outcome.isThrown])
    | redirected p => rfl
    | ok u => cases env.pollDeleteErr <;> rfl
  · intro env store cs fd f
    unfold adminDeletePollHelpers checkAdminAccessHelpers getAuthenticatedUser
    cases hau : env.authUser with
    | none => rfl
    | some u =>
      dsimp only
      cases hA : u.isAdmin with
      | false => simp [Outcome.isThrown]
      | true =>
        have hd : (decide ((some u : Option User) = none)) = false := by simp
        simp only [hd, show ((true = false) = False) from by simp, if_false]
        split
        · rfl
        · split
          · rfl
          · split
            · rfl
            · cases env.pollDeleteErr <;> rfl

end Polly
